import Mathlib

/-!
Shallow embedding of the data-access layer of the ReactPython movie API
(src/crud.py over the SQLAlchemy models in src/models.py), together with
theorems checking the specified behaviour of its query and relationship
operations.

The relational store is modelled as explicit lists of rows (`DB`); each
crud operation that mutates the store returns the result value together
with the post-commit store.  SQL `LIKE` is modelled with its `%` and `_`
wildcards (`likeMatch`); case folding done by a store collation is
configuration of the MySQL server, not of this code, and is not modelled.
`ORDER BY` is modelled with a stable insertion sort on the relevant key;
the claims are stated as multiset-content plus sortedness, so the
unspecified order of equal keys is not constrained beyond that.  The
legacy SQLAlchemy `Query` API used by crud.py deduplicates full-entity
result rows by primary key; this is modelled (`dedupById`) where it is
observable, i.e. for the joined actor-name query.
-/

namespace ReactPython

/-- Row of the `stars` table (src/models.py, class Star).  `birthdate` is a
nullable date column; dates are modelled abstractly as ordinals. -/
structure Star where
  id : Nat
  name : String
  birthdate : Option Nat
deriving DecidableEq, Repr

/-- Row of the `movies` table (src/models.py, class Movie).  The
`director` relationship is stored through the `id_director` foreign key;
`actors` is the many-to-many relationship through the `play` table. -/
structure Movie where
  id : Nat
  title : String
  year : Int
  duration : Option Int
  id_director : Option Nat
deriving DecidableEq, Repr

/-- Row of the `play` association table (src/models.py): (id_movie,
id_actor, role); `role` is nullable and unused by every operation. -/
structure PlayRow where
  id_movie : Nat
  id_actor : Nat
  role : Option String
deriving DecidableEq, Repr

/-- The relational store: the three tables, each a list of rows in the
store's natural order. -/
structure DB where
  movies : List Movie
  stars : List Star
  play : List PlayRow
deriving DecidableEq, Repr

/-- `db.query(models.Movie).filter(models.Movie.id == movie_id).first()`
(crud.get_movie, without its logging side effect). -/
def get_movie (db : DB) (movie_id : Nat) : Option Movie :=
  db.movies.find? (fun m => m.id == movie_id)

/-- `db.query(models.Star).filter(models.Star.id == star_id).first()`
(crud.get_star). -/
def get_star (db : DB) (star_id : Nat) : Option Star :=
  db.stars.find? (fun s => s.id == star_id)

/-- The `director` relationship of a movie: the star row reached through
the `id_director` foreign key, if any. -/
def directorRel (db : DB) (m : Movie) : Option Star :=
  m.id_director.bind (fun d => db.stars.find? (fun s => s.id == d))

/-- The `actors` relationship of a movie: one star per `play` row of the
movie, in join order (a relational join, so a star appears once per
matching (play, stars) row pair). -/
def actorsRel (db : DB) (m : Movie) : List Star :=
  (db.play.filter (fun p => p.id_movie == m.id)).flatMap
    (fun p => db.stars.filter (fun s => s.id == p.id_actor))

/-- SQL `LIKE` pattern matching over characters: `%` matches any sequence,
`_` any single character, anything else itself.  (Collation case folding
is server configuration and not modelled.) -/
def likeMatch : List Char → List Char → Bool
  | [], s => s.isEmpty
  | p :: ps, s =>
      if p = '%' then (List.tails s).any (fun v => likeMatch ps v)
      else if p = '_' then
        match s with
        | [] => false
        | _ :: v => likeMatch ps v
      else
        match s with
        | [] => false
        | c :: v => (p == c) && likeMatch ps v

/-- `column.like(pattern)` on strings. -/
def sqlLike (pat s : String) : Bool :=
  likeMatch pat.data s.data

/-- `ORDER BY year` (ascending) comparison on movies. -/
def yearLE (a b : Movie) : Prop := a.year ≤ b.year

/-- `ORDER BY year DESC` comparison on movies. -/
def yearGE (a b : Movie) : Prop := b.year ≤ a.year

instance : DecidableRel yearLE := fun a b => inferInstanceAs (Decidable (a.year ≤ b.year))

instance : DecidableRel yearGE := fun a b => inferInstanceAs (Decidable (b.year ≤ a.year))

instance : IsTotal Movie yearLE := ⟨fun a b => Int.le_total a.year b.year⟩

instance : IsTotal Movie yearGE := ⟨fun a b => Int.le_total b.year a.year⟩

instance : IsTrans Movie yearLE := ⟨fun _ _ _ hab hbc => le_trans hab hbc⟩

instance : IsTrans Movie yearGE := ⟨fun _ _ _ hab hbc => le_trans hbc hab⟩

/-- crud.get_movies_by_title: filter `title LIKE '%text%'`, order by year
descending. -/
def get_movies_by_title (db : DB) (movie_title : String) : List Movie :=
  List.insertionSort yearGE
    (db.movies.filter (fun m => sqlLike ("%" ++ movie_title ++ "%") m.title))

/-- crud.get_movies_by_range_year: both bounds absent returns None;
max only: `year <= max` descending; min only: `year >= min` ascending;
both: the conjunction, ascending. -/
def get_movies_by_range_year (db : DB) (year_min year_max : Option Int) :
    Option (List Movie) :=
  match year_min, year_max with
  | none, none => none
  | none, some ymax =>
      some (List.insertionSort yearGE
        (db.movies.filter (fun m => decide (m.year ≤ ymax))))
  | some ymin, none =>
      some (List.insertionSort yearLE
        (db.movies.filter (fun m => decide (ymin ≤ m.year))))
  | some ymin, some ymax =>
      some (List.insertionSort yearLE
        (db.movies.filter (fun m => decide (ymin ≤ m.year) && decide (m.year ≤ ymax))))

/-- The inner join `db.query(Movie).join(Movie.actors)`: one (movie, star)
pair per matching (movies, play, stars) row triple, in store order. -/
def joinMovieActors (db : DB) : List (Movie × Star) :=
  db.movies.flatMap (fun m => (actorsRel db m).map (fun s => (m, s)))

/-- Legacy SQLAlchemy `Query` deduplication of full-entity results: rows
mapping to the same identity (primary key) are returned once, keeping the
first occurrence in result order.  `seen` is the set of ids already
emitted. -/
def dedupById (seen : List Nat) : List Movie → List Movie
  | [] => []
  | m :: rest =>
      if m.id ∈ seen then dedupById seen rest
      else m :: dedupById (m.id :: seen) rest

/-- crud.get_movies_by_actor_endname: join to the actor set, filter
`Star.name LIKE '%text'`, order by year descending.  The legacy `Query`
API returns full `Movie` entities, deduplicating the joined rows by
primary key, so each matching movie is returned once. -/
def get_movies_by_actor_endname (db : DB) (endname : String) : List Movie :=
  dedupById []
    (List.insertionSort yearGE
      (((joinMovieActors db).filter
          (fun p => sqlLike ("%" ++ endname) p.2.name)).map Prod.fst))

/-- crud.get_director_by_id_movie:
`db.query(Movie).filter(Movie.id == movie_id).join(Movie.director).first()`
followed by `movie_director.director`.  When `first()` yields None (no such
movie, or its director join is empty) the attribute access on None raises;
the raised exception is embedded as `Except.error`. -/
def get_director_by_id_movie (db : DB) (movie_id : Nat) : Except String Star :=
  match (db.movies.filter
      (fun m => m.id == movie_id && (directorRel db m).isSome)).head? with
  | none => Except.error "AttributeError: NoneType has no attribute director"
  | some m =>
      match directorRel db m with
      | some s => Except.ok s
      | none => Except.error "AttributeError: NoneType has no attribute director"

/-- `func.min` over the non-NULL values of a column (NULL when the group
has no non-NULL value). -/
def sqlMin (l : List Int) : Option Int := l.min?

/-- `func.max` over the non-NULL values of a column. -/
def sqlMax (l : List Int) : Option Int := l.max?

/-- `func.avg` over the non-NULL values of a column, as an exact rational. -/
def sqlAvg (l : List Int) : Option ℚ :=
  if l.isEmpty then none else some ((l.sum : ℚ) / (l.length : ℚ))

/-- One result record of crud.get_count_movies_by_year. -/
structure YearStat where
  year : Int
  movie_count : Nat
  min_duration : Option Int
  max_duration : Option Int
  avg_duration : Option ℚ
deriving DecidableEq, Repr

/-- The aggregate row GROUP BY produces for one year value. -/
def yearStatsFor (db : DB) (y : Int) : YearStat :=
  let g := db.movies.filter (fun m => m.year == y)
  let ds := g.filterMap (fun m => m.duration)
  ⟨y, g.length, sqlMin ds, sqlMax ds, sqlAvg ds⟩

/-- crud.get_count_movies_by_year: `count(*)`, `min/max/avg(duration)`
grouped by year, ordered by year ascending. -/
def get_count_movies_by_year (db : DB) : List YearStat :=
  (List.insertionSort (fun a b : Int => a ≤ b)
      (db.movies.map (fun m => m.year)).dedup).map (yearStatsFor db)

/-- crud.update_movie: fetch by id; when present overwrite title, year and
duration and commit; return the updated row, or None when absent.  The
second component is the post-commit store. -/
def update_movie (db : DB) (id : Nat) (title : String) (year : Int)
    (duration : Option Int) : Option Movie × DB :=
  match get_movie db id with
  | none => (none, db)
  | some m =>
      (some { m with title := title, year := year, duration := duration },
       { db with movies := db.movies.map (fun x =>
           if x.id == id then { x with title := title, year := year, duration := duration }
           else x) })

/-- Result of crud.update_movie_director / crud.add_movie_actor: either a
string sentinel ("error_m" / "error_s") or the updated movie row. -/
inductive CrudResult where
  | err (msg : String)
  | movie (m : Movie)
deriving DecidableEq, Repr

/-- crud.update_movie_director: look up movie then star; "error_m" when
the movie is missing, otherwise "error_s" when the star is missing;
otherwise set `movie.director = star` (the `id_director` foreign key) and
commit. -/
def update_movie_director (db : DB) (movie_id director_id : Nat) :
    CrudResult × DB :=
  match get_movie db movie_id, get_star db director_id with
  | none, _ => (CrudResult.err "error_m", db)
  | some _, none => (CrudResult.err "error_s", db)
  | some m, some s =>
      (CrudResult.movie { m with id_director := some s.id },
       { db with movies := db.movies.map (fun x =>
           if x.id == m.id then { x with id_director := some s.id } else x) })

/-- crud.add_movie_actor: look up movie then star; same sentinels as
update_movie_director; otherwise `movie.actors.append(star)` commits one
new play row (role NULL). -/
def add_movie_actor (db : DB) (movie_id star_id : Nat) : CrudResult × DB :=
  match get_movie db movie_id, get_star db star_id with
  | none, _ => (CrudResult.err "error_m", db)
  | some _, none => (CrudResult.err "error_s", db)
  | some m, some s =>
      (CrudResult.movie m,
       { db with play := db.play ++ [⟨m.id, s.id, none⟩] })

/-- crud.update_movie_actors: resolve `Star.id.in_(star_ids)` (stars whose
id is in the list, in store order — absent ids are silently dropped); None
when the movie is missing; otherwise `movie.actors = resolved` replaces
every play row of the movie. -/
def update_movie_actors (db : DB) (movie_id : Nat) (star_ids : List Nat) :
    Option Movie × DB :=
  let db_actors := db.stars.filter (fun s => star_ids.contains s.id)
  match get_movie db movie_id with
  | none => (none, db)
  | some m =>
      (some m,
       { db with play :=
           db.play.filter (fun p => p.id_movie != m.id)
             ++ db_actors.map (fun s => ⟨m.id, s.id, none⟩) })

/-! ### Lemmas about SQL LIKE matching -/

/-- A pattern consisting of a single `%` accepts every string: the empty
suffix is always available. -/
theorem likeMatch_single_percent (s : List Char) : likeMatch ['%'] s = true := by
  simp [likeMatch, List.any_eq_true, List.mem_tails]

/-- The pattern `%%` accepts every string. -/
theorem likeMatch_percent_percent (s : List Char) :
    likeMatch ['%', '%'] s = true := by
  simp [likeMatch, List.any_eq_true, List.mem_tails]
  exact ⟨s, List.suffix_refl s⟩

/-- A wildcard-free pattern accepts exactly itself. -/
theorem likeMatch_nowild : ∀ ps : List Char, '%' ∉ ps → '_' ∉ ps →
    ∀ s : List Char, (likeMatch ps s = true ↔ ps = s)
  | [], _, _, s => by cases s <;> simp [likeMatch]
  | p :: ps, h1, h2, s => by
      have hp : ¬ p = '%' := fun e => h1 (e ▸ List.mem_cons_self p ps)
      have hq : ¬ p = '_' := fun e => h2 (e ▸ List.mem_cons_self p ps)
      have h1' : '%' ∉ ps := fun hm => h1 (List.mem_cons_of_mem p hm)
      have h2' : '_' ∉ ps := fun hm => h2 (List.mem_cons_of_mem p hm)
      cases s with
      | nil => simp [likeMatch, if_neg hp, if_neg hq]
      | cons c v =>
          simp [likeMatch, if_neg hp, if_neg hq,
            likeMatch_nowild ps h1' h2' v, Bool.and_eq_true, beq_iff_eq]

/-- For a wildcard-free word `t`, the pattern `%t` accepts exactly the
strings having `t` as a suffix. -/
theorem likeMatch_percent_suffix (t : List Char) (h1 : '%' ∉ t) (h2 : '_' ∉ t)
    (s : List Char) : (likeMatch ('%' :: t) s = true ↔ t <:+ s) := by
  have hstep : likeMatch ('%' :: t) s = (List.tails s).any (fun v => likeMatch t v) := by
    simp [likeMatch]
  rw [hstep, List.any_eq_true]
  constructor
  · rintro ⟨v, hv, hm⟩
    have hvt := (likeMatch_nowild t h1 h2 v).mp hm
    exact hvt ▸ (List.mem_tails _ _).mp hv
  · intro hsuf
    exact ⟨t, (List.mem_tails _ _).mpr hsuf, (likeMatch_nowild t h1 h2 t).mpr rfl⟩

/-- `LIKE '%%'` (empty search text interpolated into `'%{text}%'`)
accepts every title. -/
theorem sqlLike_empty_text (s : String) : sqlLike ("%" ++ "" ++ "%") s = true := by
  have h : ("%" ++ "" ++ "%").data = ['%', '%'] := rfl
  show likeMatch (("%" ++ "" ++ "%").data) s.data = true
  rw [h]
  exact likeMatch_percent_percent s.data

/-- No `%` or `_` wildcard occurs in the search text. -/
def noWildcards (t : String) : Prop := '%' ∉ t.data ∧ '_' ∉ t.data

instance (t : String) : Decidable (noWildcards t) :=
  inferInstanceAs (Decidable (_ ∧ _))

/-- For wildcard-free search text, `LIKE '%text'` is exactly the suffix
test on the character sequence. -/
theorem sqlLike_suffix (t s : String) (h : noWildcards t) :
    (sqlLike ("%" ++ t) s = true ↔ t.data <:+ s.data) := by
  show likeMatch (("%" ++ t).data) s.data = true ↔ _
  have hdata : ("%" ++ t).data = '%' :: t.data := by
    rw [String.data_append]; rfl
  rw [hdata]
  exact likeMatch_percent_suffix t.data h.1 h.2 s.data

/-! ### Claim C5: year-range query with no bounds -/

/-- C5: for every database state, `get_movies_by_range_year` called with
both bounds absent returns the None sentinel, which is distinct from an
empty result list. -/
theorem claim5_range_year_no_bounds (db : DB) :
    get_movies_by_range_year db none none = none ∧
    (none : Option (List Movie)) ≠ some [] := by
  exact ⟨rfl, fun h => Option.noConfusion h⟩

/-! ### Claim C1: year-range query with bounds -/

/-- C1: for every database state and integer bounds: with only min given
the result is exactly the movies with `min ≤ year`, ascending by year;
with only max given exactly those with `year ≤ max`, descending by year;
with both given exactly those with `min ≤ year ≤ max`, ascending by
year.  "Exactly" is multiset equality with the corresponding filter of
the movies table. -/
theorem claim1_range_year_filters (db : DB) (a b : Int) :
    (∃ l, get_movies_by_range_year db (some a) none = some l ∧
       l.Perm (db.movies.filter (fun m => decide (a ≤ m.year))) ∧
       l.Sorted yearLE) ∧
    (∃ l, get_movies_by_range_year db none (some b) = some l ∧
       l.Perm (db.movies.filter (fun m => decide (m.year ≤ b))) ∧
       l.Sorted yearGE) ∧
    (∃ l, get_movies_by_range_year db (some a) (some b) = some l ∧
       l.Perm (db.movies.filter
         (fun m => decide (a ≤ m.year) && decide (m.year ≤ b))) ∧
       l.Sorted yearLE) := by
  refine ⟨⟨_, rfl, List.perm_insertionSort _ _, List.sorted_insertionSort _ _⟩,
    ⟨_, rfl, List.perm_insertionSort _ _, List.sorted_insertionSort _ _⟩,
    ⟨_, rfl, List.perm_insertionSort _ _, List.sorted_insertionSort _ _⟩⟩

/-! ### Claim C10: title search with empty text -/

/-- C10: for every database state, `get_movies_by_title` with the empty
search text returns every movie of the store (the empty substring matches
any title), sorted descending by year. -/
theorem claim10_title_empty_text (db : DB) :
    (get_movies_by_title db "").Perm db.movies ∧
    (get_movies_by_title db "").Sorted yearGE := by
  constructor
  · have hfilter :
        db.movies.filter (fun m => sqlLike ("%" ++ "" ++ "%") m.title) = db.movies :=
      List.filter_eq_self.mpr (fun m _ => sqlLike_empty_text m.title)
    show List.insertionSort yearGE
        (db.movies.filter (fun m => sqlLike ("%" ++ "" ++ "%") m.title)) |>.Perm db.movies
    rw [hfilter]
    exact List.perm_insertionSort _ _
  · exact List.sorted_insertionSort _ _

/-! ### Lemmas about row updates -/

/-- Looking a row up by id commutes with an id-preserving update of the
table. -/
theorem find?_id_map (l : List Movie) (mid : Nat) (f : Movie → Movie)
    (hf : ∀ x, (f x).id = x.id) :
    (l.map f).find? (fun x => x.id == mid) =
      (l.find? (fun x => x.id == mid)).map f := by
  rw [List.find?_map]
  have hp : ((fun x : Movie => x.id == mid) ∘ f) = (fun x : Movie => x.id == mid) := by
    funext x
    simp [Function.comp, hf]
  rw [hp]

/-! ### Claim C2: setting a movie's director -/

/-- C2: for every database state, `update_movie_director` returns the
"error_m" sentinel (store unchanged) when the movie id does not resolve,
the distinct "error_s" sentinel (store unchanged) when the movie resolves
but the star id does not, and otherwise returns the movie with its
director reference set to the found star, persisted: re-reading the movie
yields the updated row, its director relationship resolves to that star,
and the stars and play tables are untouched. -/
theorem claim2_update_movie_director (db : DB) (mid sid : Nat) :
    (get_movie db mid = none →
       update_movie_director db mid sid = (CrudResult.err "error_m", db)) ∧
    (∀ m, get_movie db mid = some m → get_star db sid = none →
       update_movie_director db mid sid = (CrudResult.err "error_s", db)) ∧
    (∀ m s, get_movie db mid = some m → get_star db sid = some s →
       (update_movie_director db mid sid).1 =
         CrudResult.movie { m with id_director := some s.id } ∧
       get_movie (update_movie_director db mid sid).2 mid =
         some { m with id_director := some s.id } ∧
       directorRel (update_movie_director db mid sid).2
         { m with id_director := some s.id } = some s ∧
       (update_movie_director db mid sid).2.stars = db.stars ∧
       (update_movie_director db mid sid).2.play = db.play) ∧
    CrudResult.err "error_m" ≠ CrudResult.err "error_s" := by
  refine ⟨fun h => by simp [update_movie_director, h], ?_, ?_, by simp⟩
  · intro m hm hs
    simp [update_movie_director, hm, hs]
  · intro m s hm hs
    have hmid : m.id = mid := by simpa using List.find?_some hm
    have hsid : s.id = sid := by simpa using List.find?_some hs
    refine ⟨by simp [update_movie_director, hm, hs], ?_, ?_, ?_, ?_⟩
    · show get_movie { db with movies := _ } mid = _
      simp only [update_movie_director, hm, hs]
      unfold get_movie
      rw [find?_id_map _ _ _ (fun x => by
        by_cases hx : x.id == m.id <;> simp [hx])]
      unfold get_movie at hm
      rw [hm]
      simp [hmid]
    · simp only [update_movie_director, hm, hs]
      unfold directorRel
      simp only [Option.bind_some, Option.some_bind]
      rw [hsid]
      exact hs
    · simp [update_movie_director, hm, hs]
    · simp [update_movie_director, hm, hs]

/-- Witness for C2 at a concrete store: movie 1 exists, star 7 exists, and
setting the director of movie 1 to star 7 persists the reference. -/
theorem claim2_witness :
    (update_movie_director
        ⟨[⟨1, "A", 2000, none, none⟩], [⟨7, "S", none⟩], []⟩ 1 7).1 =
      CrudResult.movie ⟨1, "A", 2000, none, some 7⟩ ∧
    get_movie (update_movie_director
        ⟨[⟨1, "A", 2000, none, none⟩], [⟨7, "S", none⟩], []⟩ 1 7).2 1 =
      some ⟨1, "A", 2000, none, some 7⟩ := by
  have h := (claim2_update_movie_director
      ⟨[⟨1, "A", 2000, none, none⟩], [⟨7, "S", none⟩], []⟩ 1 7).2.2.1
      ⟨1, "A", 2000, none, none⟩ ⟨7, "S", none⟩ rfl rfl
  exact ⟨h.1, h.2.1⟩

/-! ### Claim C9: error paths commit nothing -/

/-- C9: for every database state, whenever `update_movie_director` or
`add_movie_actor` returns an error sentinel, the returned store is the
unchanged input store: the function returns before any commit. -/
theorem claim9_error_paths_leave_store (db : DB) (mid sid : Nat) (e : String) :
    ((update_movie_director db mid sid).1 = CrudResult.err e →
       (update_movie_director db mid sid).2 = db) ∧
    ((add_movie_actor db mid sid).1 = CrudResult.err e →
       (add_movie_actor db mid sid).2 = db) := by
  constructor <;>
    cases hm : get_movie db mid <;> cases hs : get_star db sid <;>
      simp [update_movie_director, add_movie_actor, hm, hs]

/-- Witness for C9 on the empty store, where both operations fail with
"error_m". -/
theorem claim9_witness :
    (update_movie_director ⟨[], [], []⟩ 1 2).2 = ⟨[], [], []⟩ ∧
    (add_movie_actor ⟨[], [], []⟩ 1 2).2 = ⟨[], [], []⟩ :=
  ⟨(claim9_error_paths_leave_store ⟨[], [], []⟩ 1 2 "error_m").1 rfl,
   (claim9_error_paths_leave_store ⟨[], [], []⟩ 1 2 "error_m").2 rfl⟩

/-! ### Claim C7: scalar update leaves relationships untouched -/

/-- C7: for every database state, when the movie id exists `update_movie`
replaces exactly the title, year and duration of that movie (the returned
row and the re-read row carry the new scalars and the old director
reference), its resolved director and actor set are unchanged, the stars
and play tables are unchanged and every other movie row is kept; when the
id does not exist it returns the None sentinel and the store is
unchanged. -/
theorem claim7_update_movie (db : DB) (id : Nat) (title : String) (year : Int)
    (dur : Option Int) :
    (get_movie db id = none → update_movie db id title year dur = (none, db)) ∧
    (∀ m, get_movie db id = some m →
       (update_movie db id title year dur).1 =
           some { m with title := title, year := year, duration := dur } ∧
       get_movie (update_movie db id title year dur).2 id =
           some { m with title := title, year := year, duration := dur } ∧
       directorRel (update_movie db id title year dur).2
           { m with title := title, year := year, duration := dur } =
         directorRel db m ∧
       actorsRel (update_movie db id title year dur).2
           { m with title := title, year := year, duration := dur } =
         actorsRel db m ∧
       (update_movie db id title year dur).2.stars = db.stars ∧
       (update_movie db id title year dur).2.play = db.play ∧
       (∀ x ∈ db.movies, ¬ x.id = id →
          x ∈ (update_movie db id title year dur).2.movies)) := by
  refine ⟨fun h => by simp [update_movie, h], ?_⟩
  intro m hm
  have hmid : m.id = id := by simpa using List.find?_some hm
  refine ⟨by simp [update_movie, hm], ?_, ?_, ?_, ?_, ?_, ?_⟩
  · show get_movie { db with movies := _ } id = _
    simp only [update_movie, hm]
    unfold get_movie
    rw [find?_id_map _ _ _ (fun x => by
      by_cases hx : x.id == id <;> simp [hx])]
    unfold get_movie at hm
    rw [hm]
    simp [hmid]
  · simp [update_movie, hm, directorRel]
  · simp [update_movie, hm, actorsRel]
  · simp [update_movie, hm]
  · simp [update_movie, hm]
  · intro x hx hxid
    simp only [update_movie, hm]
    have hfx : (if x.id == id
        then { x with title := title, year := year, duration := dur }
        else x) = x := if_neg (by simpa using hxid)
    exact hfx ▸ List.mem_map_of_mem _ hx

/-- Witness for C7: updating movie 1's scalars keeps its director
reference and actor set. -/
theorem claim7_witness :
    (update_movie
        ⟨[⟨1, "A", 2000, some 90, some 7⟩], [⟨7, "S", none⟩],
          [⟨1, 7, none⟩]⟩ 1 "B" 2001 (some 95)).1 =
      some ⟨1, "B", 2001, some 95, some 7⟩ ∧
    get_movie (update_movie
        ⟨[⟨1, "A", 2000, some 90, some 7⟩], [⟨7, "S", none⟩],
          [⟨1, 7, none⟩]⟩ 1 "B" 2001 (some 95)).2 1 =
      some ⟨1, "B", 2001, some 95, some 7⟩ ∧
    actorsRel (update_movie
        ⟨[⟨1, "A", 2000, some 90, some 7⟩], [⟨7, "S", none⟩],
          [⟨1, 7, none⟩]⟩ 1 "B" 2001 (some 95)).2
        ⟨1, "B", 2001, some 95, some 7⟩ =
      actorsRel
        ⟨[⟨1, "A", 2000, some 90, some 7⟩], [⟨7, "S", none⟩],
          [⟨1, 7, none⟩]⟩ ⟨1, "A", 2000, some 90, some 7⟩ := by
  have h := (claim7_update_movie
      ⟨[⟨1, "A", 2000, some 90, some 7⟩], [⟨7, "S", none⟩], [⟨1, 7, none⟩]⟩
      1 "B" 2001 (some 95)).2 ⟨1, "A", 2000, some 90, some 7⟩ rfl
  exact ⟨h.1, h.2.1, h.2.2.2.1⟩

/-! ### Claim C4: replacing a movie's actor set -/

/-- In a stars table with no duplicate ids, filtering by the id of a
member returns exactly that member. -/
theorem filter_id_singleton : ∀ {l : List Star},
    (l.map Star.id).Nodup → ∀ {s : Star}, s ∈ l →
    l.filter (fun x => x.id == s.id) = [s]
  | [], _, _, hs => absurd hs (List.not_mem_nil _)
  | a :: t, h, s, hs => by
      rw [List.map_cons, List.nodup_cons] at h
      obtain ⟨ha, ht⟩ := h
      rcases List.mem_cons.mp hs with hsa | hst
      · subst hsa
        rw [List.filter_cons_of_pos (by simp)]
        have hnil : t.filter (fun x => x.id == s.id) = [] := by
          rw [List.filter_eq_nil_iff]
          intro x hx hbeq
          have hxid : x.id = s.id := by simpa using hbeq
          have hmem : s.id ∈ List.map Star.id t :=
            hxid ▸ List.mem_map_of_mem Star.id hx
          exact ha hmem
        rw [hnil]
      · have hne : (a.id == s.id) = false := by
          rw [beq_eq_false_iff_ne]
          intro he
          exact ha (he ▸ List.mem_map_of_mem Star.id hst)
        rw [List.filter_cons]
        simp only [hne, Bool.false_eq_true, if_false]
        exact filter_id_singleton ht hst

/-- C4: for every database state whose stars table has no duplicate ids,
`update_movie_actors` on an existing movie sets that movie's actor set to
exactly the stars whose ids occur in the given list — ids that match no
star are silently dropped, without error — and returns the movie, leaving
the stars and movies tables unchanged; on a missing movie id it returns
the None sentinel with the store unchanged. -/
theorem claim4_update_movie_actors (db : DB) (mid : Nat) (ids : List Nat)
    (hstars : (db.stars.map Star.id).Nodup) :
    (get_movie db mid = none → update_movie_actors db mid ids = (none, db)) ∧
    (∀ m, get_movie db mid = some m →
       (update_movie_actors db mid ids).1 = some m ∧
       actorsRel (update_movie_actors db mid ids).2 m =
         db.stars.filter (fun s => decide (s.id ∈ ids)) ∧
       (update_movie_actors db mid ids).2.stars = db.stars ∧
       (update_movie_actors db mid ids).2.movies = db.movies) := by
  refine ⟨fun h => by simp [update_movie_actors, h], ?_⟩
  intro m hm
  refine ⟨by simp [update_movie_actors, hm], ?_,
    by simp [update_movie_actors, hm], by simp [update_movie_actors, hm]⟩
  simp only [update_movie_actors, hm]
  unfold actorsRel
  rw [List.filter_append]
  have hleft : (db.play.filter (fun p => p.id_movie != m.id)).filter
      (fun p => p.id_movie == m.id) = [] := by
    rw [List.filter_eq_nil_iff]
    intro p hp
    have := (List.mem_filter.mp hp).2
    simp only [bne_iff_ne, ne_eq] at this
    simp [this]
  have hright : ((db.stars.filter (fun s => ids.contains s.id)).map
        (fun s => (⟨m.id, s.id, none⟩ : PlayRow))).filter
      (fun p => p.id_movie == m.id) =
      (db.stars.filter (fun s => ids.contains s.id)).map
        (fun s => (⟨m.id, s.id, none⟩ : PlayRow)) := by
    rw [List.filter_eq_self]
    intro p hp
    obtain ⟨s, _, hps⟩ := List.mem_map.mp hp
    subst hps
    simp
  rw [hleft, hright, List.nil_append, List.flatMap_map]
  have hsingle : ∀ s ∈ db.stars.filter (fun s => ids.contains s.id),
      db.stars.filter (fun x => x.id == s.id) = [s] := fun s hs =>
    filter_id_singleton hstars (List.mem_filter.mp hs).1
  rw [List.flatMap_congr hsingle, List.flatMap_singleton']
  apply List.filter_congr
  intro s _
  simp [List.contains_iff_exists_mem_beq, List.elem_iff]

/-- Witness for C4: replacing movie 1's actors with ids [7, 9, 99] keeps
stars 7 and 9 and silently drops the absent id 99. -/
theorem claim4_witness :
    (update_movie_actors
        ⟨[⟨1, "A", 2000, none, none⟩], [⟨7, "S", none⟩, ⟨8, "T", none⟩, ⟨9, "U", none⟩],
          [⟨1, 8, none⟩]⟩ 1 [7, 9, 99]).1 = some ⟨1, "A", 2000, none, none⟩ ∧
    actorsRel (update_movie_actors
        ⟨[⟨1, "A", 2000, none, none⟩], [⟨7, "S", none⟩, ⟨8, "T", none⟩, ⟨9, "U", none⟩],
          [⟨1, 8, none⟩]⟩ 1 [7, 9, 99]).2 ⟨1, "A", 2000, none, none⟩ =
      [⟨7, "S", none⟩, ⟨9, "U", none⟩] := by
  have h := (claim4_update_movie_actors
      ⟨[⟨1, "A", 2000, none, none⟩], [⟨7, "S", none⟩, ⟨8, "T", none⟩, ⟨9, "U", none⟩],
        [⟨1, 8, none⟩]⟩ 1 [7, 9, 99] (by decide)).2
      ⟨1, "A", 2000, none, none⟩ rfl
  refine ⟨h.1, ?_⟩
  rw [h.2.1]
  decide

/-! ### Claim C6: per-year aggregates -/

/-- C6: for every database state, `get_count_movies_by_year` returns one
record per distinct movie year (its year list is `≤`-sorted and has no
duplicates, and carries a year iff some movie has it), each record holding
the count of that year's movies and the min, max and average of their
durations; on the store {1999: durations 90 and 110, 2001: duration 120}
it returns [{1999, 2, 90, 110, 100}, {2001, 1, 120, 120, 120}]. -/
theorem claim6_count_movies_by_year (db : DB) :
    ((get_count_movies_by_year db).map YearStat.year).Sorted (· ≤ ·) ∧
    ((get_count_movies_by_year db).map YearStat.year).Nodup ∧
    (∀ y : Int, y ∈ (get_count_movies_by_year db).map YearStat.year ↔
       y ∈ db.movies.map Movie.year) ∧
    (∀ st ∈ get_count_movies_by_year db,
       st.movie_count = (db.movies.filter (fun m => m.year == st.year)).length ∧
       st.min_duration = sqlMin ((db.movies.filter
           (fun m => m.year == st.year)).filterMap Movie.duration) ∧
       st.max_duration = sqlMax ((db.movies.filter
           (fun m => m.year == st.year)).filterMap Movie.duration) ∧
       st.avg_duration = sqlAvg ((db.movies.filter
           (fun m => m.year == st.year)).filterMap Movie.duration)) ∧
    get_count_movies_by_year
        ⟨[⟨1, "M1", 1999, some 90, none⟩, ⟨2, "M2", 1999, some 110, none⟩,
          ⟨3, "M3", 2001, some 120, none⟩], [], []⟩ =
      [⟨1999, 2, some 90, some 110, some 100⟩,
       ⟨2001, 1, some 120, some 120, some 120⟩] := by
  have hyears : (get_count_movies_by_year db).map YearStat.year =
      List.insertionSort (fun a b : Int => a ≤ b)
        (db.movies.map (fun m => m.year)).dedup := by
    unfold get_count_movies_by_year
    rw [List.map_map]
    have hcomp : (YearStat.year ∘ yearStatsFor db) = id := funext fun y => rfl
    rw [hcomp, List.map_id]
  refine ⟨?_, ?_, ?_, ?_, ?_⟩
  · rw [hyears]
    exact List.sorted_insertionSort _ _
  · rw [hyears]
    exact (List.perm_insertionSort _ _).symm.nodup (List.nodup_dedup _)
  · intro y
    rw [hyears]
    simp [List.mem_insertionSort, List.mem_dedup]
  · intro st hst
    obtain ⟨y, _, hy⟩ := List.mem_map.mp hst
    subst hy
    exact ⟨rfl, rfl, rfl, rfl⟩
  · have hy : ((([⟨1, "M1", 1999, some 90, none⟩, ⟨2, "M2", 1999, some 110, none⟩,
        ⟨3, "M3", 2001, some 120, none⟩] : List Movie).map
          (fun m => m.year)).dedup) = [1999, 2001] := by decide
    show (List.insertionSort (fun a b : Int => a ≤ b) _).map _ = _
    rw [hy]
    have hs : List.insertionSort (fun a b : Int => a ≤ b) [1999, 2001] =
        [1999, 2001] := by decide
    rw [hs]
    simp [yearStatsFor, sqlMin, sqlMax, sqlAvg, YearStat.mk.injEq]
    norm_num

/-- Witness for C6: on the example store, the 1999 record counts its two
movies. -/
theorem claim6_witness :
    (⟨1999, 2, some 90, some 110, some 100⟩ : YearStat).movie_count =
      (([⟨1, "M1", 1999, some 90, none⟩, ⟨2, "M2", 1999, some 110, none⟩,
          ⟨3, "M3", 2001, some 120, none⟩] : List Movie).filter
        (fun m => m.year ==
          (⟨1999, 2, some 90, some 110, some 100⟩ : YearStat).year)).length := by
  have h := claim6_count_movies_by_year
    ⟨[⟨1, "M1", 1999, some 90, none⟩, ⟨2, "M2", 1999, some 110, none⟩,
      ⟨3, "M3", 2001, some 120, none⟩], [], []⟩
  exact (h.2.2.2.1 ⟨1999, 2, some 90, some 110, some 100⟩
    (by rw [h.2.2.2.2]; exact List.mem_cons_self _ _)).1

/-! ### Claim C3: director lookup on a movie without a director -/

/-- C3 (code bug): `get_director_by_id_movie` dereferences the result of
`first()` unconditionally, so whenever the movie id does not exist, the
movie has a NULL director reference, or the reference dangles, the Python
code raises AttributeError (embedded as `Except.error`) instead of
returning the not-found sentinel its caller in main.py tests for; only
when the movie exists and its director row joins does it return the
star. -/
theorem claim3_director_lookup_raises :
    get_director_by_id_movie ⟨[], [], []⟩ 1 =
      Except.error "AttributeError: NoneType has no attribute director" ∧
    get_director_by_id_movie ⟨[⟨1, "A", 2000, none, none⟩], [], []⟩ 1 =
      Except.error "AttributeError: NoneType has no attribute director" ∧
    get_director_by_id_movie ⟨[⟨1, "A", 2000, none, some 9⟩], [], []⟩ 1 =
      Except.error "AttributeError: NoneType has no attribute director" ∧
    get_director_by_id_movie
        ⟨[⟨1, "A", 2000, none, some 7⟩], [⟨7, "S", none⟩], []⟩ 1 =
      Except.ok ⟨7, "S", none⟩ :=
  ⟨rfl, rfl, rfl, rfl⟩

/-! ### Claim C8: movies by actor name suffix -/

/-- The entity deduplication keeps a subsequence of the result rows. -/
theorem dedupById_sublist : ∀ (seen : List Nat) (l : List Movie),
    List.Sublist (dedupById seen l) l
  | _, [] => List.Sublist.refl []
  | seen, m :: rest => by
      unfold dedupById
      by_cases hm : m.id ∈ seen
      · rw [if_pos hm]
        exact (dedupById_sublist seen rest).trans (List.sublist_cons_self m rest)
      · rw [if_neg hm]
        exact List.Sublist.cons₂ m (dedupById_sublist (m.id :: seen) rest)

/-- The entity deduplication emits no id twice and none from `seen`. -/
theorem dedupById_ids_nodup : ∀ (seen : List Nat) (l : List Movie),
    ((dedupById seen l).map Movie.id).Nodup ∧
    ∀ i ∈ (dedupById seen l).map Movie.id, i ∉ seen
  | _, [] => ⟨List.nodup_nil, by simp [dedupById]⟩
  | seen, m :: rest => by
      unfold dedupById
      by_cases hm : m.id ∈ seen
      · rw [if_pos hm]
        exact dedupById_ids_nodup seen rest
      · rw [if_neg hm]
        obtain ⟨hnd, hni⟩ := dedupById_ids_nodup (m.id :: seen) rest
        rw [List.map_cons]
        refine ⟨List.nodup_cons.mpr ⟨fun hmem => ?_, hnd⟩, ?_⟩
        · exact (hni _ hmem) (List.mem_cons_self _ _)
        · intro i hi
          rcases List.mem_cons.mp hi with rfl | hi'
          · exact hm
          · exact fun hs => (hni i hi') (List.mem_cons_of_mem _ hs)

/-- A result row whose id is not yet seen, and which no other same-id row
differs from, survives the entity deduplication. -/
theorem mem_dedupById : ∀ (seen : List Nat) (l : List Movie) (x : Movie),
    x ∈ l → (∀ y ∈ l, y.id = x.id → y = x) → x.id ∉ seen →
    x ∈ dedupById seen l
  | _, [], x, hx, _, _ => absurd hx (List.not_mem_nil x)
  | seen, m :: rest, x, hx, hcl, hseen => by
      unfold dedupById
      by_cases hm : m.id ∈ seen
      · rw [if_pos hm]
        have hxr : x ∈ rest := by
          rcases List.mem_cons.mp hx with rfl | hr
          · exact absurd hm hseen
          · exact hr
        exact mem_dedupById seen rest x hxr
          (fun y hy => hcl y (List.mem_cons_of_mem _ hy)) hseen
      · rw [if_neg hm]
        by_cases hxm : m = x
        · exact hxm ▸ List.mem_cons_self _ _
        · have hxr : x ∈ rest := by
            rcases List.mem_cons.mp hx with rfl | hr
            · exact absurd rfl hxm
            · exact hr
          have hxid : x.id ∉ m.id :: seen := by
            intro hmem
            rcases List.mem_cons.mp hmem with he | hs
            · exact hxm (hcl m (List.mem_cons_self m rest) he.symm)
            · exact hseen hs
          exact List.mem_cons_of_mem m
            (mem_dedupById (m.id :: seen) rest x hxr
              (fun y hy => hcl y (List.mem_cons_of_mem _ hy)) hxid)

/-- C8 (counterexample): the search text is interpolated into the LIKE
pattern `'%{text}'`, so a `%` in the text acts as a wildcard: on the store
with one movie whose single actor is named "John", the query called with
the text "%" returns that movie, although no actor name ends with the
character "%" — refuting the for-every-text suffix reading. -/
theorem claim8_counterexample :
    ¬ (get_movies_by_actor_endname
        ⟨[⟨1, "A", 2000, none, none⟩], [⟨1, "John", none⟩],
         [⟨1, 1, none⟩]⟩ "%").Perm
      ((⟨[⟨1, "A", 2000, none, none⟩], [⟨1, "John", none⟩],
         [⟨1, 1, none⟩]⟩ : DB).movies.filter
        (fun m => (actorsRel
          ⟨[⟨1, "A", 2000, none, none⟩], [⟨1, "John", none⟩],
           [⟨1, 1, none⟩]⟩ m).any
            (fun s => ("%".data).isSuffixOf s.name.data))) := by
  decide

/-- C8 (amended): for every database state whose movies table satisfies
the primary-key invariant and every search text free of the SQL LIKE
wildcards `%` and `_`, the query returns exactly the movies having at
least one actor whose name ends with the text (suffix match, not a
substring match; each matching movie once), sorted descending by year. -/
theorem claim8_actor_endname_amended (db : DB) (t : String) (h : noWildcards t)
    (hmovies : (db.movies.map Movie.id).Nodup) :
    (get_movies_by_actor_endname db t).Perm
      (db.movies.filter (fun m => (actorsRel db m).any
        (fun s => (t.data).isSuffixOf s.name.data))) ∧
    (get_movies_by_actor_endname db t).Sorted yearGE := by
  unfold get_movies_by_actor_endname
  set L := List.insertionSort yearGE
    (((joinMovieActors db).filter
        (fun p => sqlLike ("%" ++ t) p.2.name)).map Prod.fst) with hL
  have hmemL : ∀ x : Movie, x ∈ L ↔
      (x ∈ db.movies ∧ ∃ s ∈ actorsRel db x,
        ((t.data).isSuffixOf s.name.data) = true) := by
    intro x
    rw [hL, List.mem_insertionSort]
    constructor
    · intro hx
      obtain ⟨p, hp, hpx⟩ := List.mem_map.mp hx
      obtain ⟨hpj, hplike⟩ := List.mem_filter.mp hp
      obtain ⟨m, hm, hpmem⟩ := List.mem_flatMap.mp hpj
      obtain ⟨s, hs, hms⟩ := List.mem_map.mp hpmem
      subst hms
      subst hpx
      refine ⟨hm, s, hs, ?_⟩
      rw [List.isSuffixOf_iff_suffix]
      exact (sqlLike_suffix t s.name h).mp hplike
    · rintro ⟨hxm, s, hs, hsuf⟩
      refine List.mem_map.mpr ⟨(x, s), List.mem_filter.mpr ⟨?_, ?_⟩, rfl⟩
      · exact List.mem_flatMap.mpr ⟨x, hxm, List.mem_map.mpr ⟨s, hs, rfl⟩⟩
      · exact (sqlLike_suffix t s.name h).mpr (List.isSuffixOf_iff_suffix.mp hsuf)
  have hinj := List.inj_on_of_nodup_map hmovies
  constructor
  · have hnd1 : (dedupById [] L).Nodup :=
      List.Nodup.of_map Movie.id (dedupById_ids_nodup [] L).1
    have hnd2 : (db.movies.filter (fun m => (actorsRel db m).any
        (fun s => (t.data).isSuffixOf s.name.data))).Nodup :=
      (List.Nodup.of_map Movie.id hmovies).filter _
    apply (List.perm_ext_iff_of_nodup hnd1 hnd2).mpr
    intro a
    constructor
    · intro ha
      have haL : a ∈ L := (dedupById_sublist [] L).subset ha
      obtain ⟨ham, s, hs, hsuf⟩ := (hmemL a).mp haL
      exact List.mem_filter.mpr ⟨ham, List.any_eq_true.mpr ⟨s, hs, hsuf⟩⟩
    · intro ha
      obtain ⟨ham, hany⟩ := List.mem_filter.mp ha
      obtain ⟨s, hs, hsuf⟩ := List.any_eq_true.mp hany
      have haL : a ∈ L := (hmemL a).mpr ⟨ham, s, hs, hsuf⟩
      refine mem_dedupById [] L a haL ?_ (List.not_mem_nil _)
      intro y hyL hyid
      exact hinj ((hmemL y).mp hyL).1 ham hyid
  · exact List.Pairwise.sublist (dedupById_sublist [] L)
      (List.sorted_insertionSort _ _)

/-- Witness for the amended C8 on a store where "Smith" matches the actor
"John Smith" of one movie but not the actor "Smithson" of another. -/
theorem claim8_witness :
    noWildcards "Smith" ∧
    ((⟨[⟨1, "A", 2000, none, none⟩, ⟨2, "B", 1999, none, none⟩],
        [⟨1, "John Smith", none⟩, ⟨2, "Smithson", none⟩],
        [⟨1, 1, none⟩, ⟨2, 2, none⟩]⟩ : DB).movies.map Movie.id).Nodup ∧
    (get_movies_by_actor_endname
        ⟨[⟨1, "A", 2000, none, none⟩, ⟨2, "B", 1999, none, none⟩],
         [⟨1, "John Smith", none⟩, ⟨2, "Smithson", none⟩],
         [⟨1, 1, none⟩, ⟨2, 2, none⟩]⟩ "Smith").Perm
      ((⟨[⟨1, "A", 2000, none, none⟩, ⟨2, "B", 1999, none, none⟩],
         [⟨1, "John Smith", none⟩, ⟨2, "Smithson", none⟩],
         [⟨1, 1, none⟩, ⟨2, 2, none⟩]⟩ : DB).movies.filter
        (fun m => (actorsRel
          ⟨[⟨1, "A", 2000, none, none⟩, ⟨2, "B", 1999, none, none⟩],
           [⟨1, "John Smith", none⟩, ⟨2, "Smithson", none⟩],
           [⟨1, 1, none⟩, ⟨2, 2, none⟩]⟩ m).any
            (fun s => ("Smith".data).isSuffixOf s.name.data))) ∧
    (get_movies_by_actor_endname
        ⟨[⟨1, "A", 2000, none, none⟩, ⟨2, "B", 1999, none, none⟩],
         [⟨1, "John Smith", none⟩, ⟨2, "Smithson", none⟩],
         [⟨1, 1, none⟩, ⟨2, 2, none⟩]⟩ "Smith").Sorted yearGE :=
  ⟨by decide, by decide,
   (claim8_actor_endname_amended
      ⟨[⟨1, "A", 2000, none, none⟩, ⟨2, "B", 1999, none, none⟩],
       [⟨1, "John Smith", none⟩, ⟨2, "Smithson", none⟩],
       [⟨1, 1, none⟩, ⟨2, 2, none⟩]⟩ "Smith" (by decide) (by decide)).1,
   (claim8_actor_endname_amended
      ⟨[⟨1, "A", 2000, none, none⟩, ⟨2, "B", 1999, none, none⟩],
       [⟨1, "John Smith", none⟩, ⟨2, "Smithson", none⟩],
       [⟨1, 1, none⟩, ⟨2, 2, none⟩]⟩ "Smith" (by decide) (by decide)).2⟩

end ReactPython
